import Mathlib

/-!
Shallow embedding of the JitsiBot repository (`bot.py`, `tootscanner.py`,
`mastodon.py`) and verification of its specification claims.

Time stamps and durations are modelled as rationals (`ℚ`), remaining-quota
counters as integers, notification ids and account handles as strings where
the empty string models a missing (Python-falsy) value.
-/

namespace JitsiBot

/-- `TootScanner.note_poll_period` (tootscanner.py line 26). -/
def note_poll_period : Nat := 15

/-- `TootScanner.horn_window` (tootscanner.py line 24). -/
def horn_window : Nat := 1800

/- ## Broadcast scheduler: `TootScanner.tootThatHorn`, scheduling part -/

/-- The chunk-size growth loop of `TootScanner.tootThatHorn`
(tootscanner.py lines 210-214):

    per_toot = 2
    toots_needed = calls_remain + 1
    while toots_needed > calls_remain and per_toot < 10:
        per_toot += 1
        toots_needed = len(followers) / per_toot

`p` is `per_toot`, `t` is `toots_needed`, `F` is `len(followers)`, `R` is
`calls_remain`.  The loop guard enforces `per_toot < 10`, so `10 - per_toot`
bounds the remaining iterations; `fuel` carries that bound structurally and
is always called with `fuel + p = 10`, in which case running out of fuel
coincides with the guard `p < 10` failing. -/
def chunkGrowLoop (F : Nat) (R : Int) : Nat → Nat → ℚ → Nat × ℚ
  | 0, p, t => (p, t)
  | fuel + 1, p, t =>
    if (R : ℚ) < t ∧ p < 10 then
      chunkGrowLoop F R fuel (p + 1) ((F : ℚ) / ((p + 1 : Nat) : ℚ))
    else (p, t)

/-- The schedule computation of `TootScanner.tootThatHorn`
(tootscanner.py lines 206-218), from `calls_remain = R`,
`len(followers) = F` and `time_remain = timeRemain`, producing
`some (per_toot, wait_between)`.

`none` models the `UnboundLocalError` the source raises when
`calls_remain < 5`: that branch (lines 206-208) assigns `per_toot = 10` and
`wait_between = 2 * note_poll_period`, but line 216 then unconditionally
resets `wait_between = 0` and line 217 reads `toots_needed`, which was never
assigned on this path, so execution fails before any toot is dispatched. -/
def computeSchedule (R : Int) (F : Nat) (timeRemain : ℚ) : Option (Nat × ℚ) :=
  if R < 5 then none
  else
    let g := chunkGrowLoop F R 8 2 ((R : ℚ) + 1)
    let w : ℚ := if (R : ℚ) < g.2 then timeRemain / g.2 + 1 else 0
    some (g.1, w)

/-- Spec-side definition for claim C1, following the amended claim's words:
the minimal chunk size in 3..10 satisfying `ceil(F / c) ≤ R`, or 10 when no
size in that range fits. -/
def specMinChunkSize (F : Nat) (R : Int) : Nat :=
  (((List.range' 3 8).find? (fun (c : Nat) => decide (⌈(F : ℚ) / (c : ℚ)⌉ ≤ R))).getD 10)

/-- Python `int(·)` applied to a rational: truncation toward zero. -/
def pyInt (q : ℚ) : Int := if 0 ≤ q then ⌊q⌋ else ⌈q⌉

/-- tootscanner.py lines 201-204:

    calls_remain = self.trunk.getRateRemaining()
    calls_remain -= int(time_remain / self.note_poll_period) + len(requestors)

`quota` is `getRateRemaining()`, `timeRemain` is `getEstimatedTimeToReset()`
and `nreq` is `len(requestors)`. -/
def callsAfterReserve (quota : Int) (timeRemain : ℚ) (nreq : Nat) : Int :=
  quota - (pyInt (timeRemain / (note_poll_period : ℚ)) + (nreq : Int))

/- ## Rate observer: `mastodon.Proboscis` -/

/-- The rate-limit bookkeeping state of `mastodon.Proboscis`
(mastodon.py lines 27-30): last known remaining-call count, timestamp of the
last observed reset boundary, and the bounded history of observed reset
periods. -/
structure Proboscis where
  api_rate_remain : Int
  api_last_reset : ℚ
  api_last_periods : List ℚ
deriving DecidableEq, Repr

/-- `Proboscis.getRateRemaining` (mastodon.py lines 55-59). -/
def getRateRemaining (s : Proboscis) : Int := s.api_rate_remain

/-- mastodon.py lines 129-130:

    while len(self.api_last_periods) > 10:
        self.api_last_periods.remove(self.api_last_periods[0])

`list.remove(x)` deletes the first element equal to `x`; applied to
`periods[0]` it deletes the head. -/
def trimPeriods : List ℚ → List ℚ
  | [] => []
  | x :: tl => if (x :: tl).length > 10 then trimPeriods tl else x :: tl

/-- mastodon.py lines 131-133:

    # assuming first two are bad
    if len(self.api_last_periods) == 2:
        self.api_last_periods[0] = self.api_last_periods[1]
-/
def overwriteFirstOfTwo : List ℚ → List ℚ
  | [_, b] => [b, b]
  | l => l

/-- The rate/period update performed by `Proboscis.checkResponse`
(mastodon.py lines 125-135) for a response whose `X-RateLimit-Remaining`
header parsed to the integer `remain`, observed at time `now`:

    remain = int(sremain)
    if remain:
        if remain > self.api_rate_remain:
            self.api_last_periods.append(time.time() - self.api_last_reset.timestamp())
            while len(self.api_last_periods) > 10: ...remove first...
            if len(self.api_last_periods) == 2:
                self.api_last_periods[0] = self.api_last_periods[1]
            self.api_last_reset = datetime.datetime.now()
        self.api_rate_remain = remain

(The `X-RateLimit-Reset` handling further down only touches
`api_next_reset`, which none of these fields depend on.) -/
def checkResponseRate (s : Proboscis) (remain : Int) (now : ℚ) : Proboscis :=
  if remain ≠ 0 then
    let s1 :=
      if s.api_rate_remain < remain then
        { s with
          api_last_periods :=
            overwriteFirstOfTwo
              (trimPeriods (s.api_last_periods ++ [now - s.api_last_reset])),
          api_last_reset := now }
      else s
    { s1 with api_rate_remain := remain }
  else s

/- ## Backoff: `TootScanner.doTheWork` and the `bot.py` main loop -/

/-- The recovery behaviour of `TootScanner.doTheWork`'s polling loop
(tootscanner.py lines 96-111).  Input: the outcome of each successive
`processNotes` cycle (`true` = completed, `false` = raised
`requests.ConnectionError`) and the current consecutive-error count.
Output: the successive sleep durations, in seconds.  A completed cycle
resets the error count and sleeps `note_poll_period`; a connection error
increments it and sleeps `min(32 * 60, note_poll_period * 2 ** connectErrors)`.
The loop is `while True`: it never terminates on its own, no matter how many
consecutive errors occur. -/
def doTheWorkRun : List Bool → Nat → List Nat
  | [], _ => []
  | ok :: rest, n =>
    if ok then note_poll_period :: doTheWorkRun rest 0
    else min (32 * 60) (note_poll_period * 2 ^ (n + 1)) :: doTheWorkRun rest (n + 1)

/-- The supervisor loop of `bot.py` (lines 37-56).  Input: the outcome of
each successive `job.doTheWork()` call (`false` = it raised
`ConnectionError`) and the current consecutive-error count.  Output: the
successive sleep durations and whether the loop reached the fatal
`exit(1)` path (`connectErrors > 15`).  A connection error sleeps
`60 * connectErrors` seconds. -/
def botRun : List Bool → Nat → List Nat × Bool
  | [], _ => ([], false)
  | ok :: rest, n =>
    if ok then
      let r := botRun rest 0
      (15 :: r.1, r.2)
    else if 15 < n + 1 then ([], true)
    else
      let r := botRun rest (n + 1)
      (60 * (n + 1) :: r.1, r.2)

/- ## Broadcast dispatch: `TootScanner.tootThatHorn`, posting loop -/

/-- tootscanner.py lines 237-241: the delay used after a failed post,
`getEstimatedTimeToReset()` floored at one poll period:

    reset = self.trunk.getEstimatedTimeToReset()
    if reset < self.note_poll_period:
        reset = self.note_poll_period
-/
def retryWait (reset : ℚ) : ℚ :=
  if reset < (note_poll_period : ℚ) then (note_poll_period : ℚ) else reset

/-- The chunk-dispatch loop of `TootScanner.tootThatHorn`
(tootscanner.py lines 225-246), with the posting and pacing side effects
made explicit.  `postOk k` is the outcome of the `k`-th `postStatus` call,
`resetAt k` the value `getEstimatedTimeToReset()` would return after a
failed attempt `k`; `p` is `per_toot`, `nF` is `len(followers)`, `pos` the
loop position and `fuel` a bound on attempts.  Returns
`some (posted chunk start positions, failure sleeps)` when the loop finishes
within `fuel` attempts, `none` otherwise (the source loop simply keeps
retrying):

    while pos < len(followers):
        ...build toot for followers[pos : pos+per_toot]...
        while not self.trunk.postStatus(toot):
            ...sleep retryWait...
        pos += per_toot
-/
def runDispatch (postOk : Nat → Bool) (resetAt : Nat → ℚ) (p nF : Nat) :
    Nat → Nat → Nat → Option (List Nat × List ℚ)
  | 0, pos, _ => if pos < nF then none else some ([], [])
  | fuel + 1, pos, k =>
    if pos < nF then
      if postOk k then
        match runDispatch postOk resetAt p nF fuel (pos + p) (k + 1) with
        | none => none
        | some (ps, ws) => some (pos :: ps, ws)
      else
        match runDispatch postOk resetAt p nF fuel pos (k + 1) with
        | none => none
        | some (ps, ws) => some (ps, retryWait (resetAt k) :: ws)
    else some ([], [])

/-- `Covers p nF pos ps` says `ps` is exactly the full sequence of chunk
start positions `pos, pos + p, pos + 2p, ...` up to `nF`, in order, with no
chunk skipped and none repeated. -/
inductive Covers (p nF : Nat) : Nat → List Nat → Prop
  | done (pos : Nat) : nF ≤ pos → Covers p nF pos []
  | step (pos : Nat) (ps : List Nat) :
      pos < nF → Covers p nF (pos + p) ps → Covers p nF pos (pos :: ps)

/- ## Notification processor: `TootScanner.processNotes` -/

/-- A Mastodon status as `processNotes` reads it: id, text content, and the
parsed `created_at` timestamp (`none` models both a missing field and an
unparseable date, either of which leaves `age = 0` in the source). -/
structure Status where
  id : String
  content : String
  created_at : Option ℚ
deriving DecidableEq, Repr

/-- Notification types distinguished by `processNotes`. -/
inductive NKind where
  | follow
  | mention
  | other
deriving DecidableEq, Repr

/-- A notification as `processNotes` reads it.  `account = some a` models a
present `account` object with `acct = a` (the empty string models a missing
`acct`); `id = ""` models a missing id. -/
structure Note where
  id : String
  ntype : NKind
  account : Option String
  status : Option Status
deriving DecidableEq, Repr

/-- `all_requestors[nfrom] = status_id` (tootscanner.py line 149): Python
dict insertion, last write wins per key, insertion order kept. -/
def dictInsert (m : List (String × String)) (k v : String) :
    List (String × String) :=
  if m.any (fun q => q.1 == k) then
    m.map (fun q => if q.1 == k then (k, v) else q)
  else m ++ [(k, v)]

/-- The per-cycle accumulator of `processNotes` (tootscanner.py
lines 118-120): `new_followers`, `all_requestors` and `final_id`
(`""` models `None`). -/
structure CycleAcc where
  new_followers : List String
  all_requestors : List (String × String)
  final_id : String
deriving DecidableEq, Repr

/-- The body of the `for note in reversed(notes)` loop of `processNotes`
(tootscanner.py lines 121-151).  `hornMatch` is `horn_pattern.search`
(a fixed regular pattern, external to the claims), `now` is `time.time()`. -/
def classifyStep (hornMatch : String → Bool) (now : ℚ) (acc : CycleAcc)
    (note : Note) : CycleAcc :=
  let acc := { acc with final_id := note.id }
  match note.ntype with
  | NKind.follow =>
    match note.account with
    | some a =>
      if note.id ≠ "" then
        { acc with new_followers := acc.new_followers ++ [a] }
      else acc
    | none => acc
  | NKind.mention =>
    match note.account, note.status with
    | some a, some st =>
      if note.id ≠ "" ∧ a ≠ "" ∧ st.id ≠ "" ∧ st.content ≠ "" ∧
          hornMatch st.content then
        let age : ℚ := match st.created_at with
          | some t => now - t
          | none => 0
        if age > 6 * 3600 then acc
        else { acc with all_requestors := dictInsert acc.all_requestors a st.id }
      else acc
    | _, _ => acc
  | NKind.other => acc

/-- The classification fold of `processNotes` over a notification batch in
API order (newest first); the source iterates `reversed(notes)`. -/
def classify (hornMatch : String → Bool) (now : ℚ) (notes : List Note) :
    CycleAcc :=
  notes.reverse.foldl (classifyStep hornMatch now) { new_followers := [], all_requestors := [], final_id := "" }

/-- The persisted state blob written by `TootScanner._writeStore`
(tootscanner.py lines 67-82); the `api_reset_period` entry is independent of
the claims and omitted. -/
structure Store where
  last_note_id : String
  last_horn_time : ℚ
deriving DecidableEq, Repr

/-- The scanner state relevant to the cursor claims: the in-memory
`last_note_id` and `last_horn_time` fields plus the persisted copy. -/
structure SState where
  last_note_id : String
  last_horn_time : ℚ
  store : Store
deriving DecidableEq, Repr

/-- `TootScanner._writeStore` (tootscanner.py lines 67-82): persist the
in-memory fields wholesale. -/
def writeStore (s : SState) : SState :=
  { s with store := { last_note_id := s.last_note_id, last_horn_time := s.last_horn_time } }

/-- State transition of one `TootScanner.processNotes` cycle
(tootscanner.py lines 114-181) on a notification batch `notes`
(API order, newest first).  `sendOk k` gives the boolean result of the
`k`-th `postStatus` call of the cycle; the source discards those results for
follower replies (line 172) and trailer replies (line 252) and retries
broadcast chunks until success (line 236), so no field below depends on
them.  `now` is `time.time()` during classification, `now2` the time at
which `tootThatHorn` (if invoked) records `last_horn_time` (line 248).
Returns the new state and whether `tootThatHorn` was invoked. -/
def processNotes (hornMatch : String → Bool) (sendOk : Nat → Bool)
    (now now2 : ℚ) (notes : List Note) (s : SState) : SState × Bool :=
  let _ := sendOk
  let acc := classify hornMatch now notes
  if acc.new_followers = [] ∧ acc.all_requestors = [] then
    if acc.final_id ≠ "" ∧ s.last_note_id ≠ acc.final_id then
      (writeStore { s with last_note_id := acc.final_id }, false)
    else (s, false)
  else
    let recent_horn := now - s.last_horn_time < (horn_window : ℚ)
    let invoke := acc.all_requestors ≠ [] ∧ ¬ recent_horn
    let s2 := if invoke then writeStore { s with last_horn_time := now2 } else s
    let s3 :=
      if notes ≠ [] ∧ acc.final_id ≠ "" then
        writeStore { s2 with last_note_id := acc.final_id }
      else s2
    (s3, decide invoke)

/- ## Theorems -/

/-- When the guard `toots_needed > calls_remain` fails, the growth loop
exits immediately. -/
lemma chunkGrowLoop_exit (F : Nat) (R : Int) (fuel p : Nat) (t : ℚ)
    (h : ¬ (R : ℚ) < t) : chunkGrowLoop F R fuel p t = (p, t) := by
  cases fuel with
  | zero => rfl
  | succ n => rw [chunkGrowLoop, if_neg (fun hc => h hc.1)]

/-- Characterisation of the growth loop: entered with
`toots_needed > calls_remain` and `per_toot = p`, it returns the first
chunk size in `p+1 .. 10` for which `F / c ≤ R`, and 10 when none fits. -/
lemma chunkGrowLoop_find (F : Nat) (R : Int) :
    ∀ (fuel p : Nat), p + fuel = 10 → ∀ t : ℚ, (R : ℚ) < t →
      (chunkGrowLoop F R fuel p t).1 =
        (((List.range' (p + 1) fuel).find?
            (fun (c : Nat) => decide ((F : ℚ) / (c : ℚ) ≤ (R : ℚ)))).getD 10) := by
  intro fuel
  induction fuel with
  | zero =>
    intro p hp t ht
    simp only [chunkGrowLoop, List.range', List.find?, Option.getD_none]
    omega
  | succ n ih =>
    intro p hp t ht
    have hplt : p < 10 := by omega
    rw [chunkGrowLoop, if_pos ⟨ht, hplt⟩, List.range']
    by_cases hc : (F : ℚ) / ((p + 1 : Nat) : ℚ) ≤ (R : ℚ)
    · rw [List.find?_cons_of_pos _ (by simpa using hc)]
      rw [chunkGrowLoop_exit F R n (p + 1) _ (not_lt.mpr hc)]
      rfl
    · rw [List.find?_cons_of_neg _ (by simpa using hc)]
      exact ih (p + 1) (by omega) _ (not_le.mp hc)

/-- C1 (amended): for every follower count `F` and every `callsRemain ≥ 5`,
the chunk size chosen by `tootThatHorn` is the minimal value in the range
3..10 (not 2..10: the loop increments `per_toot` before testing, so size 2
is never selected) satisfying `ceil(F / chunkSize) ≤ callsRemain`, and 10
when no size in that range satisfies it. -/
theorem chunkSizeMinimalFromThree (R : Int) (F : Nat) (t : ℚ) (h : 5 ≤ R) :
    (computeSchedule R F t).map Prod.fst = some (specMinChunkSize F R) := by
  have hpred : (fun (c : Nat) => decide (⌈(F : ℚ) / (c : ℚ)⌉ ≤ R)) =
      (fun (c : Nat) => decide ((F : ℚ) / (c : ℚ) ≤ (R : ℚ))) := by
    funext c
    exact decide_eq_decide.mpr Int.ceil_le
  simp only [computeSchedule, if_neg (not_lt.mpr h), Option.map_some']
  rw [chunkGrowLoop_find F R 8 2 rfl _ (lt_add_one _), specMinChunkSize, hpred]

/-- Witness for C1 at `callsRemain = 5`, `F = 7`: the chosen chunk size is
the spec-side minimum, which evaluates to 3. -/
theorem chunkSizeMinimalFromThree_check :
    (computeSchedule 5 7 0).map Prod.fst = some (specMinChunkSize 7 5) ∧
    specMinChunkSize 7 5 = 3 := by
  constructor
  · exact chunkSizeMinimalFromThree 5 7 0 (by norm_num)
  · have h3 : (⌈(7 : ℚ) / 3⌉ ≤ (5 : Int)) := by
      rw [Int.ceil_le]
      norm_num
    simp [specMinChunkSize, List.range', List.find?, h3]

/-- C1 counterexample, refuting the claim as stated: (a) with
`callsRemain = 3` and 7 followers the scheduler takes the low-quota branch
and fails (it does not choose chunk size 3); (b) with `callsRemain = 5` and
2 followers the code chooses chunk size 3, although 2 lies in the claimed
range 2..10 and already satisfies `ceil(2 / 2) ≤ 5`, so the chosen size is
not minimal in 2..10. -/
theorem chunkSizeClaimFalse :
    computeSchedule 3 7 0 = none ∧
    (computeSchedule 5 2 0).map Prod.fst = some 3 ∧
    (2 : Nat) ≠ 3 ∧ 2 ≤ (2 : Nat) ∧ (2 : Nat) ≤ 10 ∧
    ⌈(2 : ℚ) / 2⌉ ≤ (5 : Int) := by
  refine ⟨by norm_num [computeSchedule], ?_, by norm_num, le_refl 2,
    by norm_num, by rw [Int.ceil_le]; norm_num⟩
  norm_num [computeSchedule, chunkGrowLoop]

/-- C5 (code bug): whenever `calls_remain < 5` — here `calls_remain = 4`,
with 20 followers — `tootThatHorn` does not dispatch chunks of 10 with an
inter-chunk delay of `2 * note_poll_period`: line 216 resets `wait_between`
to 0 and line 217 reads the unassigned `toots_needed`, so the branch raises
`UnboundLocalError` before any dispatch (modelled by `none`). -/
theorem lowQuotaBranchCrashes :
    computeSchedule 4 20 0 = none ∧ (4 : Int) < 5 := by
  norm_num [computeSchedule]

/-- C9 (amended): the broadcast budget is
`callsRemain = quota - floor(timeRemain / pollPeriod) - |requestors|`:
Python `int()` truncates, which on the nonnegative estimate is the floor,
not the ceiling. -/
theorem callsRemainUsesFloor (quota : Int) (tr : ℚ) (nreq : Nat)
    (h : 0 ≤ tr) :
    callsAfterReserve quota tr nreq =
      quota - ⌊tr / (note_poll_period : ℚ)⌋ - (nreq : Int) := by
  have hnn : 0 ≤ tr / (note_poll_period : ℚ) :=
    div_nonneg h (by norm_num [note_poll_period])
  unfold callsAfterReserve pyInt
  rw [if_pos hnn]
  ring

/-- Witness for C9 at `quota = 300`, `timeRemain = 16`, no requestors. -/
theorem callsRemainUsesFloor_check :
    callsAfterReserve 300 16 0 =
      300 - ⌊(16 : ℚ) / (note_poll_period : ℚ)⌋ - ((0 : Nat) : Int) ∧
    (⌊(16 : ℚ) / (note_poll_period : ℚ)⌋ : Int) = 1 := by
  have h15 : ((note_poll_period : ℚ)) = 15 := by norm_num [note_poll_period]
  constructor
  · exact callsRemainUsesFloor 300 16 0 (by norm_num)
  · rw [h15, Int.floor_eq_iff]; norm_num

/-- C9 counterexample: at `quota = 300`, `timeRemain = 16 s`, no
requestors, the code computes 299, while the claimed ceiling formula gives
298. -/
theorem callsRemainCeilFalse :
    callsAfterReserve 300 16 0 = 299 ∧
    300 - ⌈(16 : ℚ) / (note_poll_period : ℚ)⌉ - 0 = (298 : Int) ∧
    (299 : Int) ≠ 298 := by
  have h15 : ((note_poll_period : ℚ)) = 15 := by norm_num [note_poll_period]
  refine ⟨?_, ?_, by norm_num⟩
  · unfold callsAfterReserve pyInt
    rw [h15, if_pos (by norm_num)]
    rw [show ⌊(16 : ℚ) / 15⌋ = 1 by rw [Int.floor_eq_iff]; norm_num]
    norm_num
  · rw [h15, show ⌈(16 : ℚ) / 15⌉ = 2 by rw [Int.ceil_eq_iff]; norm_num]
    norm_num

/-- Helper: the sleeps produced by `k` consecutive connection failures in
`doTheWork`'s loop, starting from error count `n`. -/
lemma doTheWorkRun_replicate (k : Nat) : ∀ n : Nat,
    doTheWorkRun (List.replicate k false) n =
      (List.range k).map
        (fun j => min (32 * 60) (note_poll_period * 2 ^ (n + j + 1))) := by
  induction k with
  | zero => intro n; rfl
  | succ m ih =>
    intro n
    rw [List.replicate_succ, List.range_succ_eq_map]
    show min (32 * 60) (note_poll_period * 2 ^ (n + 1)) ::
        doTheWorkRun (List.replicate m false) (n + 1) = _
    rw [ih (n + 1), List.map_cons, List.map_map]
    refine congrArg₂ _ (by rw [Nat.add_zero]) ?_
    refine congrArg₂ _ ?_ rfl
    funext j
    have hje : n + 1 + j + 1 = n + (j + 1) + 1 := by omega
    simp [Function.comp, hje]

/-- C2 (amended): the two retry mechanisms are distinct.  Inside
`doTheWork`, the n-th consecutive connection failure is always retried
after `min(32 * 60, note_poll_period * 2 ^ n)` seconds — for every n, with
no fatal ceiling.  In the `bot.py` supervisor loop, which is the loop with
the fatal ceiling, the n-th consecutive failure sleeps `60 * n` seconds for
n = 1..15 and the 16th terminates the process via `exit(1)`. -/
theorem backoffTwoLoops :
    (∀ k n : Nat, doTheWorkRun (List.replicate k false) n =
      (List.range k).map
        (fun j => min (32 * 60) (note_poll_period * 2 ^ (n + j + 1)))) ∧
    botRun (List.replicate 16 false) 0 =
      ((List.range 15).map (fun j => 60 * (j + 1)), true) :=
  ⟨fun k n => doTheWorkRun_replicate k n, by decide⟩

/-- C2 counterexample, refuting the claim as stated: the loop that is fatal
on the 16th consecutive connection failure (`bot.py`) sleeps 60 seconds
after the first failure, not `min(32 * 60, note_poll_period * 2 ^ 1) = 30`;
and the loop whose delay is `min(32 * 60, note_poll_period * 2 ^ n)`
(`doTheWork`) is not fatal on the 16th failure — it emits a 16th retry
delay and keeps going. -/
theorem backoffClaimFalse :
    (botRun (List.replicate 16 false) 0).2 = true ∧
    (botRun (List.replicate 16 false) 0).1.headD 0 = 60 ∧
    (60 : Nat) ≠ min (32 * 60) (note_poll_period * 2 ^ 1) ∧
    (doTheWorkRun (List.replicate 16 false) 0).length = 16 ∧
    (doTheWorkRun (List.replicate 16 false) 0).headD 0 =
      min (32 * 60) (note_poll_period * 2 ^ 1) := by
  refine ⟨by decide, by decide, by decide, by decide, by decide⟩

/-- Helper: `checkResponse` never writes a zero remaining-call count. -/
lemma rate_remain_nonzero_step (s : Proboscis) (remain : Int) (now : ℚ)
    (h : s.api_rate_remain ≠ 0) :
    (checkResponseRate s remain now).api_rate_remain ≠ 0 := by
  unfold checkResponseRate
  split_ifs with h1 h2
  · simpa using h1
  · simpa using h1
  · simpa using h

/-- C10: a response whose `X-RateLimit-Remaining` header parses to 0 leaves
both the stored remaining count and the reset-period history unchanged
(the whole update is skipped), and after any sequence of ingested
responses starting from the initial remaining count of 300,
`getRateRemaining()` is never 0. -/
theorem rateRemainNeverZero :
    (∀ (s : Proboscis) (now : ℚ), checkResponseRate s 0 now = s) ∧
    (∀ (events : List (Int × ℚ)) (t0 : ℚ) (ps : List ℚ),
      getRateRemaining
        (events.foldl (fun s e => checkResponseRate s e.1 e.2)
          { api_rate_remain := 300, api_last_reset := t0,
            api_last_periods := ps }) ≠ 0) := by
  constructor
  · intro s now
    simp [checkResponseRate]
  · intro events t0 ps
    have key : ∀ (l : List (Int × ℚ)) (s : Proboscis),
        s.api_rate_remain ≠ 0 →
        (l.foldl (fun s e => checkResponseRate s e.1 e.2) s).api_rate_remain
          ≠ 0 := by
      intro l
      induction l with
      | nil => intro s h; exact h
      | cons e tl ih =>
        intro s h
        exact ih _ (rate_remain_nonzero_step s e.1 e.2 h)
    exact key events _ (by norm_num)

/-- C4 (amended): in `checkResponse`, when a reset boundary is observed
(`remain` parsed nonzero and above the stored count), the appended sample
behaves as follows: if exactly one period was recorded before, the new
(second) sample is recorded and the first is overwritten to equal it — the
overwrite happens at the second sample, not the third; if exactly two were
recorded before, the third sample is appended and the first two are left
unchanged. -/
theorem firstPeriodsOverwrite (s : Proboscis) (remain : Int) (now : ℚ)
    (h0 : remain ≠ 0) (h1 : s.api_rate_remain < remain) :
    (∀ d1, s.api_last_periods = [d1] →
      (checkResponseRate s remain now).api_last_periods =
        [now - s.api_last_reset, now - s.api_last_reset]) ∧
    (∀ a b, s.api_last_periods = [a, b] →
      (checkResponseRate s remain now).api_last_periods =
        [a, b, now - s.api_last_reset]) := by
  constructor
  · intro d1 hps
    simp [checkResponseRate, h0, h1, hps, trimPeriods, overwriteFirstOfTwo]
  · intro a b hps
    simp [checkResponseRate, h0, h1, hps, trimPeriods, overwriteFirstOfTwo]

/-- Witness for C4: one recorded period `[5]`, a boundary crossing at time
12 with last reset at 0 records the second sample 12 and overwrites the
first to it. -/
theorem firstPeriodsOverwrite_check :
    (checkResponseRate
      { api_rate_remain := 300, api_last_reset := 0, api_last_periods := [5] }
      400 12).api_last_periods = [12 - 0, 12 - 0] :=
  (firstPeriodsOverwrite
    { api_rate_remain := 300, api_last_reset := 0, api_last_periods := [5] }
    400 12 (by norm_num) (by norm_num)).1 5 rfl

/-- C4 counterexample, refuting the claim as stated: starting from an empty
history, reset boundaries observed at times 5, 12 and 21 record the
inter-reset samples 5, 7 and 9; the stored history is `[7, 7, 9]` — after
three observed boundaries the first two stored intervals equal the second
sample (7), not the third (9). -/
theorem firstPeriodsClaimFalse :
    (([((400 : Int), (5 : ℚ)), (100, 6), (400, 12), (100, 13),
        (400, 21)].foldl (fun s e => checkResponseRate s e.1 e.2)
        { api_rate_remain := 300, api_last_reset := 0,
          api_last_periods := [] }).api_last_periods = [7, 7, 9]) ∧
    (7 : ℚ) ≠ 9 := by
  constructor
  · norm_num [checkResponseRate, trimPeriods, overwriteFirstOfTwo]
  · norm_num

/-- Helper: a finished dispatch posted exactly the chunk sequence and every
recorded failure sleep came from a failed attempt through `retryWait`. -/
lemma runDispatch_sound (postOk : Nat → Bool) (resetAt : Nat → ℚ)
    (p nF : Nat) :
    ∀ (fuel pos k : Nat) (ps : List Nat) (ws : List ℚ),
      runDispatch postOk resetAt p nF fuel pos k = some (ps, ws) →
      Covers p nF pos ps ∧
      ∀ w ∈ ws, ∃ j, postOk j = false ∧ w = retryWait (resetAt j) := by
  intro fuel
  induction fuel with
  | zero =>
    intro pos k ps ws h
    rw [runDispatch] at h
    split_ifs at h with hlt
    simp only [Option.some.injEq, Prod.mk.injEq] at h
    obtain ⟨hps, hws⟩ := h
    subst hps
    subst hws
    exact ⟨Covers.done pos (not_lt.mp hlt), by simp⟩
  | succ m ih =>
    intro pos k ps ws h
    rw [runDispatch] at h
    split_ifs at h with hlt hok
    · cases hrec : runDispatch postOk resetAt p nF m (pos + p) (k + 1) with
      | none =>
        rw [hrec] at h
        exact absurd h (by simp)
      | some pr =>
        obtain ⟨ps1, ws1⟩ := pr
        rw [hrec] at h
        obtain ⟨hps, hws⟩ : pos :: ps1 = ps ∧ ws1 = ws := by simpa using h
        subst hps
        subst hws
        obtain ⟨hC, hW⟩ := ih (pos + p) (k + 1) ps1 ws1 hrec
        exact ⟨Covers.step pos ps1 hlt hC, hW⟩
    · cases hrec : runDispatch postOk resetAt p nF m pos (k + 1) with
      | none =>
        rw [hrec] at h
        exact absurd h (by simp)
      | some pr =>
        obtain ⟨ps1, ws1⟩ := pr
        rw [hrec] at h
        obtain ⟨hps, hws⟩ : ps1 = ps ∧ retryWait (resetAt k) :: ws1 = ws := by
          simpa using h
        subst hps
        subst hws
        obtain ⟨hC, hW⟩ := ih pos (k + 1) ps1 ws1 hrec
        refine ⟨hC, ?_⟩
        intro w hw
        rcases List.mem_cons.mp hw with hw0 | hwtl
        · exact ⟨k, Bool.not_eq_true _ ▸ Bool.of_not_eq_true hok, hw0⟩
        · exact hW w hwtl
    · simp only [Option.some.injEq, Prod.mk.injEq] at h
      obtain ⟨hps, hws⟩ := h
      subst hps
      subst hws
      exact ⟨Covers.done pos (not_lt.mp hlt), by simp⟩

/-- Helper: while a chunk keeps failing, the dispatch loop never finishes —
the chunk is retried at every remaining attempt and never abandoned. -/
lemma runDispatch_allFail (postOk : Nat → Bool) (resetAt : Nat → ℚ)
    (p nF : Nat) (hall : ∀ j, postOk j = false) :
    ∀ (fuel pos k : Nat), pos < nF →
      runDispatch postOk resetAt p nF fuel pos k = none := by
  intro fuel
  induction fuel with
  | zero =>
    intro pos k hlt
    rw [runDispatch, if_pos hlt]
  | succ m ih =>
    intro pos k hlt
    rw [runDispatch, if_pos hlt, hall k]
    simp [ih pos (k + 1) hlt]

/-- C6: in the broadcast dispatch loop, a failed `postStatus` makes the
scheduler sleep `retryWait(estimatedSecondsToReset)` — the estimate floored
at one poll period, i.e. `max(note_poll_period, reset)` — and retry the
same chunk indefinitely; a dispatch that finishes posted exactly the full
chunk sequence (`Covers`), skipping and abandoning none, and every failure
sleep was at least one poll period; if some chunk never succeeds, the loop
never terminates (no fuel suffices). -/
theorem broadcastRetryNoSkip (postOk : Nat → Bool) (resetAt : Nat → ℚ)
    (p nF fuel pos k : Nat) :
    (∀ r : ℚ, retryWait r = max (note_poll_period : ℚ) r) ∧
    (∀ (ps : List Nat) (ws : List ℚ),
      runDispatch postOk resetAt p nF fuel pos k = some (ps, ws) →
      Covers p nF pos ps ∧
      ∀ w ∈ ws, (note_poll_period : ℚ) ≤ w ∧
        ∃ j, postOk j = false ∧ w = retryWait (resetAt j)) ∧
    ((∀ j, postOk j = false) → pos < nF →
      runDispatch postOk resetAt p nF fuel pos k = none) := by
  have hmax : ∀ r : ℚ, retryWait r = max (note_poll_period : ℚ) r := by
    intro r
    rw [retryWait]
    split_ifs with hr
    · exact (max_eq_left (le_of_lt hr)).symm
    · exact (max_eq_right (not_lt.mp hr)).symm
  refine ⟨hmax, ?_, fun hall => runDispatch_allFail postOk resetAt p nF hall fuel pos k⟩
  intro ps ws h
  obtain ⟨hC, hW⟩ := runDispatch_sound postOk resetAt p nF fuel pos k ps ws h
  refine ⟨hC, fun w hw => ?_⟩
  obtain ⟨j, hj, hwj⟩ := hW w hw
  exact ⟨by rw [hwj, hmax]; exact le_max_left _ _, j, hj, hwj⟩

/-- Witness for C6: followers 0,1,2 in chunks of 2, the first attempt
failing with a 3-second reset estimate (slept as 15 seconds, the poll-period
floor), then successes: chunks posted at positions 0 and 2. -/
theorem broadcastRetryNoSkip_check :
    Covers 2 3 0 [0, 2] ∧
    ∀ w ∈ ([(15 : ℚ)] : List ℚ), (note_poll_period : ℚ) ≤ w ∧
      ∃ j, (fun i => decide (0 < i)) j = false ∧
        w = retryWait ((fun _ => (3 : ℚ)) j) := by
  have heval : runDispatch (fun i => decide (0 < i)) (fun _ => (3 : ℚ))
      2 3 5 0 0 = some ([0, 2], [(15 : ℚ)]) := by
    norm_num [runDispatch, retryWait, note_poll_period]
  exact (broadcastRetryNoSkip (fun i => decide (0 < i)) (fun _ => (3 : ℚ))
    2 3 5 0 0).2.1 [0, 2] [(15 : ℚ)] heval

/-- Helper: the loop body always records the current notification's id in
`final_id` (tootscanner.py line 127 runs before the type dispatch). -/
lemma classifyStep_final_id (hm : String → Bool) (now : ℚ) (acc : CycleAcc)
    (note : Note) : (classifyStep hm now acc note).final_id = note.id := by
  rcases note with ⟨nid, ty, acct, stOpt⟩
  cases ty <;> cases acct <;> cases stOpt <;>
    simp only [classifyStep] <;>
    first
      | rfl
      | (split_ifs <;> rfl)

/-- Helper: folding the loop body over a non-empty list leaves `final_id`
equal to the id of the list's last element. -/
lemma classify_foldl_final (hm : String → Bool) (now : ℚ) :
    ∀ (l : List Note) (acc : CycleAcc) (n : Note), l.getLast? = some n →
      (l.foldl (classifyStep hm now) acc).final_id = n.id := by
  intro l
  induction l with
  | nil =>
    intro acc n h
    simp at h
  | cons x tl ih =>
    intro acc n h
    cases tl with
    | nil =>
      obtain rfl : x = n := by simpa using h
      exact classifyStep_final_id hm now acc x
    | cons y tl2 =>
      rw [List.foldl_cons]
      exact ih _ n (by simpa [List.getLast?_cons_cons] using h)

/-- Helper: after classifying a batch in API order (newest first, folded
oldest first), `final_id` is the id of the newest notification — the head
of the batch, which is the last one processed. -/
lemma classify_final (hm : String → Bool) (now : ℚ) (notes : List Note)
    (n0 : Note) (h : notes.head? = some n0) :
    (classify hm now notes).final_id = n0.id := by
  refine classify_foldl_final hm now notes.reverse _ n0 ?_
  rw [List.getLast?_reverse]
  exact h

/-- C3: for every non-empty notification batch (folded oldest-first from
the newest-first input) whose last-processed notification has a real id,
and any assignment of outcomes to the posts sent during the cycle, the
in-memory and the persisted cursor after the cycle both equal the id of
the last notification processed (the head of the newest-first batch). -/
theorem cursorAdvancesAfterCycle (hm : String → Bool) (sendOk : Nat → Bool)
    (now now2 : ℚ) (notes : List Note) (n0 : Note) (s : SState)
    (hhead : notes.head? = some n0) (hid : n0.id ≠ "")
    (hcons : s.store.last_note_id = s.last_note_id) :
    (processNotes hm sendOk now now2 notes s).1.last_note_id = n0.id ∧
    (processNotes hm sendOk now now2 notes s).1.store.last_note_id =
      n0.id := by
  have hfin : (classify hm now notes).final_id = n0.id :=
    classify_final hm now notes n0 hhead
  have hne : notes ≠ [] := by
    intro hE
    rw [hE] at hhead
    simp at hhead
  simp only [processNotes]
  rw [hfin]
  by_cases h1 : (classify hm now notes).new_followers = [] ∧
      (classify hm now notes).all_requestors = []
  · rw [if_pos h1]
    split_ifs with h2
    · simp [writeStore]
    · have hlast : s.last_note_id = n0.id := by
        by_contra hne2
        exact h2 ⟨hid, hne2⟩
      exact ⟨hlast, hcons.trans hlast⟩
  · rw [if_neg h1, if_pos ⟨hne, hid⟩]
    constructor
    · simp [writeStore]
    · simp [writeStore]

/-- Witness for C3: a single already-seen-type notification with id 42,
from blank initial state. -/
theorem cursorAdvancesAfterCycle_check :
    (processNotes (fun _ => false) (fun _ => true) 0 0
      [{ id := "42", ntype := NKind.other, account := none, status := none }]
      { last_note_id := "", last_horn_time := 0,
        store := { last_note_id := "", last_horn_time := 0 } }).1.last_note_id
      = "42" ∧
    (processNotes (fun _ => false) (fun _ => true) 0 0
      [{ id := "42", ntype := NKind.other, account := none, status := none }]
      { last_note_id := "", last_horn_time := 0,
        store := { last_note_id := "", last_horn_time := 0 } }).1.store.last_note_id
      = "42" :=
  cursorAdvancesAfterCycle (fun _ => false) (fun _ => true) 0 0
    [{ id := "42", ntype := NKind.other, account := none, status := none }]
    { id := "42", ntype := NKind.other, account := none, status := none }
    { last_note_id := "", last_horn_time := 0,
      store := { last_note_id := "", last_horn_time := 0 } }
    rfl (by decide) rfl

/-- C7: when a horn request is present in the batch but the last broadcast
was less than `horn_window = 1800 s` ago, no broadcast is issued
(`tootThatHorn` not invoked, `last_horn_time` unchanged, the requestors are
simply dropped), yet the persisted cursor still advances to the last
notification id seen. -/
theorem hornWindowSuppression (hm : String → Bool) (sendOk : Nat → Bool)
    (now now2 : ℚ) (notes : List Note) (n0 : Note) (s : SState)
    (hhead : notes.head? = some n0) (hid : n0.id ≠ "")
    (hreq : (classify hm now notes).all_requestors ≠ [])
    (hrecent : now - s.last_horn_time < (horn_window : ℚ)) :
    (processNotes hm sendOk now now2 notes s).2 = false ∧
    (processNotes hm sendOk now now2 notes s).1.store.last_note_id = n0.id ∧
    (processNotes hm sendOk now now2 notes s).1.last_horn_time =
      s.last_horn_time := by
  have hfin : (classify hm now notes).final_id = n0.id :=
    classify_final hm now notes n0 hhead
  have hne : notes ≠ [] := by
    intro hE
    rw [hE] at hhead
    simp at hhead
  have hA : ¬ ((classify hm now notes).new_followers = [] ∧
      (classify hm now notes).all_requestors = []) := fun hA => hreq hA.2
  have hinv : ¬ ((classify hm now notes).all_requestors ≠ [] ∧
      ¬ (now - s.last_horn_time < (horn_window : ℚ))) := fun hI => hI.2 hrecent
  simp only [processNotes]
  rw [hfin, if_neg hA, if_neg hinv, if_pos ⟨hne, hid⟩]
  exact ⟨decide_eq_false hinv, by simp [writeStore], by simp [writeStore]⟩

/-- Witness for C7: a horn-request mention 10 minutes after a broadcast:
`now = 600`, `last_horn_time = 0`, one matching mention notification. -/
theorem hornWindowSuppression_check :
    (processNotes (fun _ => true) (fun _ => true) 600 601
      [{ id := "7", ntype := NKind.mention, account := some "alice",
         status := some { id := "s1", content := "x", created_at := some 590 } }]
      { last_note_id := "", last_horn_time := 0,
        store := { last_note_id := "", last_horn_time := 0 } }).2 = false ∧
    (processNotes (fun _ => true) (fun _ => true) 600 601
      [{ id := "7", ntype := NKind.mention, account := some "alice",
         status := some { id := "s1", content := "x", created_at := some 590 } }]
      { last_note_id := "", last_horn_time := 0,
        store := { last_note_id := "", last_horn_time := 0 } }).1.store.last_note_id
      = "7" ∧
    (processNotes (fun _ => true) (fun _ => true) 600 601
      [{ id := "7", ntype := NKind.mention, account := some "alice",
         status := some { id := "s1", content := "x", created_at := some 590 } }]
      { last_note_id := "", last_horn_time := 0,
        store := { last_note_id := "", last_horn_time := 0 } }).1.last_horn_time
      = 0 :=
  hornWindowSuppression (fun _ => true) (fun _ => true) 600 601
    [{ id := "7", ntype := NKind.mention, account := some "alice",
       status := some { id := "s1", content := "x", created_at := some 590 } }]
    { id := "7", ntype := NKind.mention, account := some "alice",
      status := some { id := "s1", content := "x", created_at := some 590 } }
    { last_note_id := "", last_horn_time := 0,
      store := { last_note_id := "", last_horn_time := 0 } }
    rfl (by decide)
    (by simp [classify, classifyStep, dictInsert]; norm_num)
    (by norm_num [horn_window])

/-- C8: a mention whose related status is older than 6 hours is dropped:
the loop body records only `final_id` for it (no requestor entry, no
follower entry, whatever the trigger match says), and a cycle consisting of
that notification issues no broadcast, leaves `last_horn_time` unchanged,
and still advances the persisted cursor past the notification. -/
theorem staleTriggerDropped (hm : String → Bool) (sendOk : Nat → Bool)
    (now now2 : ℚ) (n : Note) (a : String) (st : Status) (t : ℚ)
    (acc : CycleAcc) (s : SState)
    (hty : n.ntype = NKind.mention) (hacc : n.account = some a)
    (hst : n.status = some st) (hcr : st.created_at = some t)
    (hage : now - t > 6 * 3600) (hid : n.id ≠ "")
    (hcons : s.store.last_note_id = s.last_note_id) :
    classifyStep hm now acc n = { acc with final_id := n.id } ∧
    (processNotes hm sendOk now now2 [n] s).2 = false ∧
    (processNotes hm sendOk now now2 [n] s).1.store.last_note_id = n.id ∧
    (processNotes hm sendOk now now2 [n] s).1.last_horn_time =
      s.last_horn_time := by
  have hstep : ∀ acc2 : CycleAcc,
      classifyStep hm now acc2 n = { acc2 with final_id := n.id } := by
    intro acc2
    obtain ⟨nid, ty, acct, stOpt⟩ := n
    obtain ⟨sid, scont, screated⟩ := st
    dsimp only at hty hacc hst
    subst hty
    subst hacc
    subst hst
    dsimp only at hcr
    subst hcr
    simp only [classifyStep]
    split_ifs <;> rfl
  have hacc1 : classify hm now [n] =
      { new_followers := [], all_requestors := [], final_id := n.id } := by
    simp only [classify, List.reverse_cons, List.reverse_nil,
      List.nil_append, List.foldl_cons, List.foldl_nil]
    exact hstep _
  refine ⟨hstep acc, ?_⟩
  simp only [processNotes]
  rw [hacc1]
  rw [if_pos (⟨rfl, rfl⟩ :
    ({ new_followers := [], all_requestors := [], final_id := n.id } :
      CycleAcc).new_followers = [] ∧
    ({ new_followers := [], all_requestors := [], final_id := n.id } :
      CycleAcc).all_requestors = [])]
  split_ifs with h2
  · refine ⟨rfl, ?_, ?_⟩ <;> simp [writeStore]
  · have hlast : s.last_note_id = n.id := by
      by_contra hne2
      exact h2 ⟨hid, hne2⟩
    exact ⟨rfl, hcons.trans hlast, rfl⟩

/-- Witness for C8: a matching mention whose status is 7 hours old
(`now = 25300`, `created_at = 100`), from blank initial state. -/
theorem staleTriggerDropped_check :
    classifyStep (fun _ => true) 25300
      { new_followers := [], all_requestors := [], final_id := "" }
      { id := "9", ntype := NKind.mention, account := some "bob",
        status := some { id := "s2", content := "y", created_at := some 100 } }
      = { new_followers := [], all_requestors := [], final_id := "9" } ∧
    (processNotes (fun _ => true) (fun _ => true) 25300 25301
      [{ id := "9", ntype := NKind.mention, account := some "bob",
         status := some { id := "s2", content := "y", created_at := some 100 } }]
      { last_note_id := "", last_horn_time := 0,
        store := { last_note_id := "", last_horn_time := 0 } }).2 = false ∧
    (processNotes (fun _ => true) (fun _ => true) 25300 25301
      [{ id := "9", ntype := NKind.mention, account := some "bob",
         status := some { id := "s2", content := "y", created_at := some 100 } }]
      { last_note_id := "", last_horn_time := 0,
        store := { last_note_id := "", last_horn_time := 0 } }).1.store.last_note_id
      = "9" ∧
    (processNotes (fun _ => true) (fun _ => true) 25300 25301
      [{ id := "9", ntype := NKind.mention, account := some "bob",
         status := some { id := "s2", content := "y", created_at := some 100 } }]
      { last_note_id := "", last_horn_time := 0,
        store := { last_note_id := "", last_horn_time := 0 } }).1.last_horn_time
      = 0 :=
  staleTriggerDropped (fun _ => true) (fun _ => true) 25300 25301 _ "bob"
    { id := "s2", content := "y", created_at := some 100 } 100 _ _
    rfl rfl rfl rfl (by norm_num) (by decide) rfl

end JitsiBot
